import Mathlib

/-!
Shallow embedding of the streaming ingest-and-classify pipeline of
`app/app.py` (Building Health Monitor): the bounded history buffer
`current_data`, the active-anomaly list `anomalies`, the Prometheus
counters, the classifier wrapper `detect_anomaly`, and the ingest entry
point `receive_sensor_data`.

Python JSON dicts are modelled as association lists over a small JSON
value type; Python `dict` assignment (`d[k] = v`) replaces the value of
an existing key in place and otherwise appends the key at the end, and
`k in d` is key membership.  The request payload (`request.json`) may be
a JSON object, a JSON string, or null; on a string, `field in data` is
Python substring containment and `data['timestamp'] = ...` raises a
`TypeError`.  An uncaught Python exception escaping the Flask view
function is modelled by the `Except.error` branch of the returned
outcome; the state component returned alongside it carries the global
mutations performed before the exception was raised.

Wall-clock time (`time.time() * 1000`, line 313 of app.py) is passed to
`receive_sensor_data` as an explicit parameter `ts`.  The trained model
is opaque to the core: it is modelled as a function from the extracted
feature columns to either a raw integer verdict (the first element of
the array `model.predict` returns) or a raised exception message.
-/

namespace HealthMonitor

/-- A JSON value stored in a sensor-data dict: the payload fields are
numbers, and the pipeline itself stores a number (`timestamp`), a boolean
(`is_anomaly`) and a string (`status`) into the dict. -/
inductive JVal where
  | num (n : Int)
  | bool (b : Bool)
  | str (s : String)
  deriving DecidableEq, Repr

/-- A Python dict, as an insertion-ordered association list. -/
abbrev Dict := List (String × JVal)

/-- Python `d.get(k)` / `d[k]`: value of the first occurrence of `k`. -/
def dlookup (d : Dict) (k : String) : Option JVal :=
  match d with
  | [] => none
  | (k', v') :: rest => if k' = k then some v' else dlookup rest k

/-- Python `d[k] = v`: replace the value of an existing key in place,
otherwise append the new key at the end (insertion order). -/
def dset (d : Dict) (k : String) (v : JVal) : Dict :=
  match d with
  | [] => [(k, v)]
  | (k', v') :: rest => if k' = k then (k, v) :: rest else (k', v') :: dset rest k v

/-- Python `k in d` for a dict. -/
def dmem (k : String) (d : Dict) : Bool :=
  (dlookup d k).isSome

/-- Predicate `charsStart l p`: the character list `p` is a prefix of `l`. -/
def charsStart : List Char → List Char → Bool
  | _, [] => true
  | [], _ :: _ => false
  | a :: l, b :: p => a == b && charsStart l p

/-- Python `pat in s` for strings: substring containment. -/
def strContains (s pat : String) : Bool :=
  go s.data
where
  go : List Char → Bool
  | [] => charsStart [] pat.data
  | a :: l => charsStart (a :: l) pat.data || go l

/-- The key list of a dict. -/
def dictKeys (d : Dict) : List String := d.map (fun kv => kv.1)

/-- Python dict equality `d1 == d2`: the dicts hold the same keys with
equal values (insertion order is irrelevant); checking every key of
either dict suffices. -/
def dictEquiv (d1 d2 : Dict) : Bool :=
  (dictKeys d1 ++ dictKeys d2).all (fun k => dlookup d1 k == dlookup d2 k)

/-- The two dicts agree on every key other than `timestamp` (they differ
at most in a client-supplied timestamp field). -/
def eqExceptTimestamp (d1 d2 : Dict) : Bool :=
  (dictKeys d1 ++ dictKeys d2).all
    (fun k => k == "timestamp" || dlookup d1 k == dlookup d2 k)

/-- Constant `MAX_DATA_POINTS` (app.py line 55). -/
def MAX_DATA_POINTS : Nat := 100

/-- List `required_fields` (app.py line 308). -/
def requiredFields : List String :=
  ["temperature", "humidity", "pressure", "vibration"]

/-- The trained model artifact, opaque to the core.  `predict` receives
the four feature columns that `pd.DataFrame([data_point], columns=[...])`
extracts from the dict (a missing key would give a NaN column, hence
`Option`) and either returns the raw verdict `prediction[0]` or raises
(`Except.error` carries the exception message). -/
structure Model where
  predict : Option JVal × Option JVal × Option JVal × Option JVal → Except String Int

/-- The process-wide mutable globals of app.py: the loaded model, the
history buffer `current_data`, the active-anomaly list `anomalies`, the
Prometheus counters `DATA_POINTS_RECEIVED` and `ANOMALIES_DETECTED`, and
the gauge `ACTIVE_ANOMALIES`. -/
structure AppState where
  model : Option Model
  current_data : List Dict
  anomalies : List Dict
  data_points_received : Nat
  anomalies_detected : Nat
  active_anomalies : Nat

/-- The state at process start (app.py lines 55-60): empty buffers, zero
counters, and whatever `load_model` produced for `model`. -/
def initialState (m : Option Model) : AppState :=
  { model := m, current_data := [], anomalies := [],
    data_points_received := 0, anomalies_detected := 0, active_anomalies := 0 }

/-- The ordered feature columns `pd.DataFrame([data_point],
columns=['temperature', 'humidity', 'pressure', 'vibration'])` extracts
from the dict (app.py line 95); a missing key would give a NaN column,
hence `Option`. -/
def features (data_point : Dict) :
    Option JVal × Option JVal × Option JVal × Option JVal :=
  (dlookup data_point "temperature", dlookup data_point "humidity",
   dlookup data_point "pressure", dlookup data_point "vibration")

/-- Embedding of `detect_anomaly` (app.py lines 84-104).  With no model loaded it
fails open with `"Model not loaded"`; a raised prediction error is caught
and fails open with `"Prediction error: <detail>"`; otherwise the raw
verdict `-1` maps to an anomaly. -/
def detect_anomaly (m : Option Model) (data_point : Dict) : Bool × String :=
  match m with
  | none => (false, "Model not loaded")
  | some model =>
    let df := features data_point
    match model.predict df with
    | Except.ok prediction =>
        let anomalous := prediction = -1
        (anomalous, if anomalous then "Detected" else "Normal")
    | Except.error e => (false, "Prediction error: " ++ e)

/-- The JSON payload `request.json` as far as the pipeline can observe
it: a JSON object, a JSON string, or null (empty / non-object bodies). -/
inductive Payload where
  | jnull
  | jstr (s : String)
  | jobj (d : Dict)

/-- The HTTP response of `receive_sensor_data`: either the 400 rejection
`{"status": "error", "message": msg}` or the 200 success
`{"status": "success", "message": ..., "is_anomaly": verdict}`. -/
inductive Outcome where
  | reject (message : String)
  | success (message : String) (verdict : Bool)
  deriving DecidableEq, Repr

/-- Embedding of `receive_sensor_data` (app.py lines 296-338), the ingest entry
point.  Returns the updated global state together with either the
response (`Except.ok`) or the message of an uncaught Python exception
that escaped the view function (`Except.error`); the state returned with
an `Except.error` holds the mutations made before the raise.  Line by
line: increment `DATA_POINTS_RECEIVED`; reject a falsy payload; reject a
payload missing a required field (`in` is substring containment on a
string payload, on which the later `data['timestamp'] = ...` assignment
raises `TypeError`); stamp the server time; classify; store `is_anomaly`
and `status` into the dict; append to `current_data`, popping index 0
when the length exceeds `MAX_DATA_POINTS`; then either append to
`anomalies` and bump `ANOMALIES_DETECTED`, or pop the last anomaly when
it carries the same timestamp as this normal reading; finally set the
`ACTIVE_ANOMALIES` gauge to the current length of `anomalies`. -/
def receive_sensor_data (st : AppState) (p : Payload) (ts : Int) :
    AppState × Except String Outcome :=
  let st := { st with data_points_received := st.data_points_received + 1 }
  match p with
  | Payload.jnull => (st, Except.ok (Outcome.reject "No JSON data received"))
  | Payload.jstr s =>
      if s = "" then
        (st, Except.ok (Outcome.reject "No JSON data received"))
      else if requiredFields.all (fun f => strContains s f) then
        (st, Except.error "TypeError: str object does not support item assignment")
      else
        (st, Except.ok (Outcome.reject "Missing required sensor data fields"))
  | Payload.jobj d =>
      if d = [] then
        (st, Except.ok (Outcome.reject "No JSON data received"))
      else if ¬ (requiredFields.all (fun f => dmem f d)) then
        (st, Except.ok (Outcome.reject "Missing required sensor data fields"))
      else
        let data := dset d "timestamp" (JVal.num ts)
        let verdict := detect_anomaly st.model data
        let data := dset data "is_anomaly" (JVal.bool verdict.1)
        let data := dset data "status" (JVal.str verdict.2)
        let cd := st.current_data ++ [data]
        let cd := if cd.length > MAX_DATA_POINTS then cd.tail else cd
        if verdict.1 then
          let an := st.anomalies ++ [data]
          ({ st with current_data := cd, anomalies := an,
                     anomalies_detected := st.anomalies_detected + 1,
                     active_anomalies := an.length },
           Except.ok (Outcome.success "Data received and processed" true))
        else
          let an :=
            match st.anomalies.getLast? with
            | some last =>
                if dlookup last "timestamp" = dlookup data "timestamp" then
                  st.anomalies.dropLast
                else st.anomalies
            | none => st.anomalies
          ({ st with current_data := cd, anomalies := an,
                     active_anomalies := an.length },
           Except.ok (Outcome.success "Data received and processed" false))

/-- Embedding of `get_data` (app.py lines 284-292): the read-side snapshot of the
history buffer and the active-anomaly list. -/
def get_data (st : AppState) : List Dict × List Dict :=
  (st.current_data, st.anomalies)

/-- A payload dict passes validation: non-empty and all four required
fields present (app.py lines 304-310). -/
def validPayload (d : Dict) : Bool :=
  d ≠ [] && requiredFields.all (fun f => dmem f d)

/-- The fully built reading dict that an accepted ingest stores: the
payload with the server timestamp, the verdict and the status written
into it (app.py lines 313-318). -/
def mkReading (m : Option Model) (d : Dict) (ts : Int) : Dict :=
  let data := dset d "timestamp" (JVal.num ts)
  let verdict := detect_anomaly m data
  dset (dset data "is_anomaly" (JVal.bool verdict.1)) "status" (JVal.str verdict.2)

/-- The classification an accepted ingest of payload `d` at time `ts`
receives (the classifier sees the dict after the timestamp was added). -/
def classify (m : Option Model) (d : Dict) (ts : Int) : Bool × String :=
  detect_anomaly m (dset d "timestamp" (JVal.num ts))

/-- A sequence of ingest calls with object payloads, oldest first. -/
def runIngests (st : AppState) : List (Dict × Int) → AppState
  | [] => st
  | (d, t) :: rest => runIngests (receive_sensor_data st (Payload.jobj d) t).1 rest

/-- The most recent `n` elements of `l`, in order. -/
def takeLast (n : Nat) (l : List Dict) : List Dict :=
  l.drop (l.length - n)

/-- The flap-clearing rule applied on a normal reading (app.py lines
332-336): pop the most recent anomaly when it carries the same timestamp
as the incoming reading; statement-level copy of the corresponding
branch of `receive_sensor_data`. -/
def flapClear (an : List Dict) (data : Dict) : List Dict :=
  match an.getLast? with
  | some last =>
      if dlookup last "timestamp" = dlookup data "timestamp" then an.dropLast
      else an
  | none => an

/-- The state after the record phase of an accepted ingest that built
reading `r` with verdict `v`: closed form of the state component of
`receive_sensor_data` on a valid object payload. -/
def recordState (st : AppState) (r : Dict) (v : Bool) : AppState :=
  if v then
    { st with data_points_received := st.data_points_received + 1,
              current_data := (if (st.current_data ++ [r]).length > MAX_DATA_POINTS
                               then (st.current_data ++ [r]).tail
                               else st.current_data ++ [r]),
              anomalies := st.anomalies ++ [r],
              anomalies_detected := st.anomalies_detected + 1,
              active_anomalies := (st.anomalies ++ [r]).length }
  else
    { st with data_points_received := st.data_points_received + 1,
              current_data := (if (st.current_data ++ [r]).length > MAX_DATA_POINTS
                               then (st.current_data ++ [r]).tail
                               else st.current_data ++ [r]),
              anomalies := flapClear st.anomalies r,
              active_anomalies := (flapClear st.anomalies r).length }

/-- Fixture: the in-range payload of the spec's concrete scenario. -/
def samplePayload : Dict :=
  [("temperature", JVal.num 22), ("humidity", JVal.num 50),
   ("pressure", JVal.num 1010), ("vibration", JVal.num 1)]

/-- Fixture: the out-of-range payload of the spec's concrete scenario. -/
def anomalousPayload : Dict :=
  [("temperature", JVal.num 38), ("humidity", JVal.num 90),
   ("pressure", JVal.num 985), ("vibration", JVal.num 8)]

/-- Fixture model flagging high temperature as an outlier (raw verdict
`-1`), everything else as an inlier (raw verdict `1`). -/
def thresholdModel : Model :=
  ⟨fun df =>
    match df.1 with
    | some (JVal.num t) => if 30 ≤ t then Except.ok (-1) else Except.ok 1
    | _ => Except.error "invalid input"⟩

/-- Fixture model that always reports the outlier verdict. -/
def outlierModel : Model := ⟨fun _ => Except.ok (-1)⟩

/-- Fixture model whose predict call always raises. -/
def raisingModel : Model := ⟨fun _ => Except.error "exception"⟩

/-- Fixture state holding one active anomaly. -/
def stateWithAnomaly : AppState :=
  { initialState (some thresholdModel) with
      anomalies := [anomalousPayload], active_anomalies := 1 }

/-- Fixture: `MAX_DATA_POINTS + 1` identical valid ingest inputs. -/
def manyInputs : List (Dict × Int) :=
  List.replicate (MAX_DATA_POINTS + 1) (samplePayload, 5)

/-- Fixture: `MAX_DATA_POINTS + 1` valid inputs at distinct server
times, all classified anomalous by `outlierModel`. -/
def manyAnomalousInputs : List (Dict × Int) :=
  (List.range (MAX_DATA_POINTS + 1)).map (fun i => (anomalousPayload, (i : Int)))

/-- Fixture: the sample payload with a client-supplied timestamp field. -/
def clientTsPayload : Dict := ("timestamp", JVal.num 999) :: samplePayload

end HealthMonitor

deriving instance DecidableEq for Except

namespace HealthMonitor

/-! ### Dict lemmas -/

theorem dlookup_dset (d : Dict) (k k' : String) (v : JVal) :
    dlookup (dset d k v) k' = if k' = k then some v else dlookup d k' := by
  induction d with
  | nil =>
      by_cases h : k' = k
      · subst h; simp [dset, dlookup]
      · simp [dset, dlookup, h, Ne.symm h]
  | cons kv rest ih =>
      obtain ⟨k0, v0⟩ := kv
      by_cases h0 : k0 = k
      · subst h0
        by_cases h1 : k' = k0
        · subst h1; simp [dset, dlookup]
        · simp [dset, dlookup, h1, Ne.symm h1]
      · by_cases h1 : k0 = k'
        · subst h1
          have h2 : ¬ k0 = k := h0
          simp [dset, dlookup, h0, Ne.symm h2]
        · simp [dset, dlookup, h0, h1, ih]

theorem dlookup_mkReading_timestamp (m : Option Model) (d : Dict) (ts : Int) :
    dlookup (mkReading m d ts) "timestamp" = some (JVal.num ts) := by
  simp [mkReading, dlookup_dset]

/-! ### Step characterization of the ingest entry point -/

theorem receive_valid_eq (st : AppState) (d : Dict) (ts : Int)
    (h : validPayload d = true) :
    receive_sensor_data st (Payload.jobj d) ts =
      (recordState st (mkReading st.model d ts) (classify st.model d ts).1,
       Except.ok (Outcome.success "Data received and processed"
                    (classify st.model d ts).1)) := by
  simp only [validPayload, Bool.and_eq_true, decide_eq_true_eq] at h
  obtain ⟨h1, h2⟩ := h
  simp only [receive_sensor_data, if_neg h1, h2, not_true, if_false]
  by_cases hv : (classify st.model d ts).1
  · simp only [recordState, classify, mkReading, flapClear] at hv ⊢
    simp only [hv, if_true, if_pos]
  · simp only [recordState, classify, mkReading, flapClear] at hv ⊢
    simp only [Bool.not_eq_true] at hv
    simp only [hv, if_false, Bool.false_eq_true]

end HealthMonitor

namespace HealthMonitor

theorem receive_rejected_eq (st : AppState) (d : Dict) (ts : Int)
    (h : validPayload d = false) :
    receive_sensor_data st (Payload.jobj d) ts =
      ({ st with data_points_received := st.data_points_received + 1 },
       Except.ok (Outcome.reject (if d = [] then "No JSON data received"
                                  else "Missing required sensor data fields"))) := by
  by_cases h1 : d = []
  · simp [receive_sensor_data, h1]
  · have h2 : requiredFields.all (fun f => dmem f d) = false := by
      simp only [validPayload, Bool.and_eq_false_iff, decide_eq_false_iff_not] at h
      rcases h with h | h
      · simp at h; exact absurd h h1
      · exact h
    simp [receive_sensor_data, h1, h2]

theorem receive_model (st : AppState) (p : Payload) (ts : Int) :
    ((receive_sensor_data st p ts).1).model = st.model := by
  cases p with
  | jnull => rfl
  | jstr s => simp only [receive_sensor_data]; split; · rfl
              · split <;> rfl
  | jobj d =>
      simp only [receive_sensor_data]
      split
      · rfl
      · split
        · rfl
        · split <;> rfl

theorem takeLast_of_le (n : Nat) (l : List Dict) (h : l.length ≤ n) :
    takeLast n l = l := by
  simp [takeLast, Nat.sub_eq_zero_of_le h]

theorem takeLast_length (n : Nat) (l : List Dict) :
    (takeLast n l).length = min n l.length := by
  simp [takeLast]; omega

theorem takeLast_append_left (n : Nat) (l m : List Dict) :
    takeLast n (takeLast n l ++ m) = takeLast n (l ++ m) := by
  simp only [takeLast, List.length_append, List.length_drop]
  rw [List.drop_append_eq_append_drop, List.drop_append_eq_append_drop, List.drop_drop]
  congr 1
  · congr 1
    omega
  · congr 1
    simp [List.length_drop]
    omega

theorem capAppend_eq_takeLast (cd : List Dict) (r : Dict)
    (h : cd.length ≤ MAX_DATA_POINTS) :
    (if (cd ++ [r]).length > MAX_DATA_POINTS then (cd ++ [r]).tail
     else cd ++ [r]) = takeLast MAX_DATA_POINTS (cd ++ [r]) := by
  by_cases hl : (cd ++ [r]).length > MAX_DATA_POINTS
  · have hlen : (cd ++ [r]).length = MAX_DATA_POINTS + 1 := by
      simp at hl ⊢; omega
    rw [if_pos hl]
    rw [takeLast, hlen]
    simp [List.drop_one]
  · rw [if_neg hl]
    exact (takeLast_of_le _ _ (by omega)).symm

end HealthMonitor

namespace HealthMonitor

theorem recordState_model (st : AppState) (r : Dict) (v : Bool) :
    (recordState st r v).model = st.model := by
  cases v <;> simp [recordState]

theorem runIngests_model (inputs : List (Dict × Int)) :
    ∀ st : AppState, (runIngests st inputs).model = st.model := by
  induction inputs with
  | nil => intro st; rfl
  | cons x rest ih =>
      intro st
      obtain ⟨d, t⟩ := x
      rw [runIngests, ih, receive_model]

theorem runIngests_current_data (inputs : List (Dict × Int)) :
    ∀ st : AppState, (∀ x ∈ inputs, validPayload x.1 = true) →
    st.current_data.length ≤ MAX_DATA_POINTS →
    (runIngests st inputs).current_data
      = takeLast MAX_DATA_POINTS
          (st.current_data ++ inputs.map (fun x => mkReading st.model x.1 x.2)) := by
  induction inputs with
  | nil =>
      intro st _ h0
      simp [runIngests, takeLast_of_le _ _ h0]
  | cons x rest ih =>
      intro st hv h0
      obtain ⟨d, t⟩ := x
      have hd : validPayload d = true := hv (d, t) (by simp)
      rw [runIngests, receive_valid_eq st d t hd]
      have hcd : (recordState st (mkReading st.model d t) (classify st.model d t).1).current_data
          = takeLast MAX_DATA_POINTS (st.current_data ++ [mkReading st.model d t]) := by
        have hca := capAppend_eq_takeLast st.current_data (mkReading st.model d t) h0
        cases hv2 : (classify st.model d t).1 <;>
          simpa [recordState, hv2] using hca
      have hlen : (recordState st (mkReading st.model d t)
          (classify st.model d t).1).current_data.length ≤ MAX_DATA_POINTS := by
        rw [hcd, takeLast_length]; omega
      rw [ih _ (fun y hy => hv y (List.mem_cons_of_mem _ hy)) hlen, hcd,
          recordState_model, takeLast_append_left]
      simp [List.append_assoc]

theorem recordState_anomalies_true (st : AppState) (r : Dict) :
    (recordState st r true).anomalies = st.anomalies ++ [r] := by
  simp [recordState]

theorem runIngests_anomalies_app (inputs : List (Dict × Int)) :
    ∀ st : AppState,
    (∀ x ∈ inputs, validPayload x.1 = true ∧ (classify st.model x.1 x.2).1 = true) →
    (runIngests st inputs).anomalies
      = st.anomalies ++ inputs.map (fun x => mkReading st.model x.1 x.2) := by
  induction inputs with
  | nil => intro st _; simp [runIngests]
  | cons x rest ih =>
      intro st hv
      obtain ⟨d, t⟩ := x
      obtain ⟨hd, ha⟩ := hv (d, t) (by simp)
      rw [runIngests, receive_valid_eq st d t hd, ha]
      rw [ih _ (fun y hy => by
            rw [recordState_model]
            exact hv y (List.mem_cons_of_mem _ hy))]
      rw [recordState_anomalies_true, recordState_model]
      simp [List.append_assoc]

end HealthMonitor

namespace HealthMonitor

theorem detect_anomaly_congr (m : Option Model) (d1 d2 : Dict)
    (h : features d1 = features d2) :
    detect_anomaly m d1 = detect_anomaly m d2 := by
  cases m with
  | none => rfl
  | some model => simp [detect_anomaly, h]

theorem capped_getLast (cd : List Dict) (r : Dict) :
    (if (cd ++ [r]).length > MAX_DATA_POINTS then (cd ++ [r]).tail
     else cd ++ [r]).getLast? = some r := by
  split
  · cases cd with
    | nil => simp [MAX_DATA_POINTS] at *
    | cons a as => simp
  · simp

theorem receive_valid_getLast (st : AppState) (d : Dict) (ts : Int)
    (h : validPayload d = true) :
    ((receive_sensor_data st (Payload.jobj d) ts).1).current_data.getLast?
      = some (mkReading st.model d ts) := by
  rw [receive_valid_eq st d ts h]
  cases hv : (classify st.model d ts).1 <;>
    simpa [recordState, hv] using capped_getLast st.current_data (mkReading st.model d ts)

/-- C6: for every valid reading ingested while no model is loaded,
classification returns `(false, "Model not loaded")`, the ingest call
succeeds, and the reading is still appended to the history buffer. -/
theorem C6_fail_open_no_model (st : AppState) (d : Dict) (ts : Int)
    (hm : st.model = none) (hd : validPayload d = true) :
    classify st.model d ts = (false, "Model not loaded")
  ∧ (receive_sensor_data st (Payload.jobj d) ts).2
      = Except.ok (Outcome.success "Data received and processed" false)
  ∧ ((receive_sensor_data st (Payload.jobj d) ts).1).current_data
      = (if (st.current_data ++ [mkReading st.model d ts]).length > MAX_DATA_POINTS
         then (st.current_data ++ [mkReading st.model d ts]).tail
         else st.current_data ++ [mkReading st.model d ts])
  ∧ ((receive_sensor_data st (Payload.jobj d) ts).1).current_data.getLast?
      = some (mkReading st.model d ts) := by
  have hcls : classify st.model d ts = (false, "Model not loaded") := by
    simp [classify, detect_anomaly, hm]
  refine ⟨hcls, ?_, ?_, receive_valid_getLast st d ts hd⟩
  · rw [receive_valid_eq st d ts hd, hcls]
  · rw [receive_valid_eq st d ts hd, hcls]
    simp [recordState]

/-- C6 witness at a concrete input: no model loaded, the spec scenario
payload, server time 5. -/
theorem C6_witness :
    (initialState none).model = none
  ∧ validPayload samplePayload = true
  ∧ classify (initialState none).model samplePayload 5 = (false, "Model not loaded")
  ∧ (receive_sensor_data (initialState none) (Payload.jobj samplePayload) 5).2
      = Except.ok (Outcome.success "Data received and processed" false)
  ∧ ((receive_sensor_data (initialState none) (Payload.jobj samplePayload) 5).1).current_data.getLast?
      = some (mkReading (initialState none).model samplePayload 5) := by
  have h := C6_fail_open_no_model (initialState none) samplePayload 5 rfl (by decide)
  exact ⟨rfl, by decide, h.1, h.2.1, h.2.2.2⟩

end HealthMonitor

namespace HealthMonitor

/-- C7: when the model's predict call raises, the classifier returns
`(false, "Prediction error: <detail>")`, the exception does not
propagate (the ingest call returns an ok outcome), and the reading is
recorded as non-anomalous: stored with `is_anomaly = false`, appended to
history, and the anomaly branch is not taken (the active list only
undergoes the normal-reading flap-clearing rule). -/
theorem C7_prediction_error (st : AppState) (m : Model) (d : Dict) (ts : Int)
    (e : String) (hm : st.model = some m) (hd : validPayload d = true)
    (hp : m.predict (features (dset d "timestamp" (JVal.num ts))) = Except.error e) :
    classify st.model d ts = (false, "Prediction error: " ++ e)
  ∧ (receive_sensor_data st (Payload.jobj d) ts).2
      = Except.ok (Outcome.success "Data received and processed" false)
  ∧ ((receive_sensor_data st (Payload.jobj d) ts).1).current_data.getLast?
      = some (mkReading st.model d ts)
  ∧ ((receive_sensor_data st (Payload.jobj d) ts).1).anomalies
      = flapClear st.anomalies (mkReading st.model d ts)
  ∧ dlookup (mkReading st.model d ts) "is_anomaly" = some (JVal.bool false) := by
  have hcls : classify st.model d ts = (false, "Prediction error: " ++ e) := by
    simp [classify, detect_anomaly, hm, hp]
  refine ⟨hcls, ?_, receive_valid_getLast st d ts hd, ?_, ?_⟩
  · rw [receive_valid_eq st d ts hd, hcls]
  · rw [receive_valid_eq st d ts hd, hcls]
    simp [recordState]
  · have hv : (detect_anomaly st.model (dset d "timestamp" (JVal.num ts))).1 = false := by
      rw [show detect_anomaly st.model (dset d "timestamp" (JVal.num ts))
            = classify st.model d ts from rfl, hcls]
    simp [mkReading, dlookup_dset, hv]

/-- C7 witness at a concrete input: a model whose predict always raises,
the spec scenario payload, server time 5. -/
theorem C7_witness :
    (initialState (some raisingModel)).model = some raisingModel
  ∧ validPayload samplePayload = true
  ∧ raisingModel.predict (features (dset samplePayload "timestamp" (JVal.num 5)))
      = Except.error "exception"
  ∧ classify (initialState (some raisingModel)).model samplePayload 5
      = (false, "Prediction error: " ++ "exception")
  ∧ (receive_sensor_data (initialState (some raisingModel)) (Payload.jobj samplePayload) 5).2
      = Except.ok (Outcome.success "Data received and processed" false)
  ∧ dlookup (mkReading (initialState (some raisingModel)).model samplePayload 5) "is_anomaly"
      = some (JVal.bool false) := by
  have h := C7_prediction_error (initialState (some raisingModel)) raisingModel
    samplePayload 5 "exception" rfl (by decide) rfl
  exact ⟨rfl, by decide, rfl, h.1, h.2.1, h.2.2.2.2⟩

/-- C8: a successful model prediction maps the raw verdict to the
boolean verdict: raw value `-1` yields `(true, "Detected")` and any
other raw value yields `(false, "Normal")`; these are the only two
results a successful prediction can produce. -/
theorem C8_verdict_mapping (m : Model) (d : Dict) (v : Int)
    (h : m.predict (features d) = Except.ok v) :
    detect_anomaly (some m) d
      = (if v = -1 then (true, "Detected") else (false, "Normal")) := by
  simp only [detect_anomaly, h]
  by_cases hv : v = -1 <;> simp [hv]

/-- C8 witness at a concrete input: the threshold fixture model returns
the raw outlier verdict `-1` on the anomalous payload, which maps to
`(true, "Detected")`. -/
theorem C8_witness :
    thresholdModel.predict (features anomalousPayload) = Except.ok (-1)
  ∧ detect_anomaly (some thresholdModel) anomalousPayload = (true, "Detected") := by
  refine ⟨by decide, ?_⟩
  have h := C8_verdict_mapping thresholdModel anomalousPayload (-1) (by decide)
  simpa using h

end HealthMonitor

namespace HealthMonitor

theorem receive_jnull_eq (st : AppState) (ts : Int) :
    receive_sensor_data st Payload.jnull ts =
      ({ st with data_points_received := st.data_points_received + 1 },
       Except.ok (Outcome.reject "No JSON data received")) := rfl

theorem receive_jstr_state (st : AppState) (s : String) (ts : Int) :
    (receive_sensor_data st (Payload.jstr s) ts).1
      = { st with data_points_received := st.data_points_received + 1 } := by
  simp only [receive_sensor_data]
  split
  · rfl
  · split <;> rfl

/-- C4: an ingest call whose payload is absent/empty or misses one of
the four required fields returns a structured rejection outcome; the
history buffer, the active-anomaly list and the active-anomaly gauge are
unchanged; and the rejection happens before any classification: the
response is independent of the loaded model. -/
theorem C4_validation (st : AppState) (p : Payload) (ts : Int)
    (h : p = Payload.jnull ∨ ∃ d, p = Payload.jobj d ∧ validPayload d = false) :
    (∃ msg, (receive_sensor_data st p ts).2 = Except.ok (Outcome.reject msg))
  ∧ (receive_sensor_data st p ts).1.current_data = st.current_data
  ∧ (receive_sensor_data st p ts).1.anomalies = st.anomalies
  ∧ (receive_sensor_data st p ts).1.active_anomalies = st.active_anomalies
  ∧ (∀ m : Option Model,
       (receive_sensor_data { st with model := m } p ts).2
         = (receive_sensor_data st p ts).2) := by
  rcases h with h | ⟨d, hp, hd⟩
  · subst h
    exact ⟨⟨"No JSON data received", rfl⟩, rfl, rfl, rfl, fun m => rfl⟩
  · subst hp
    rw [receive_rejected_eq st d ts hd]
    refine ⟨⟨_, rfl⟩, rfl, rfl, rfl, fun m => ?_⟩
    rw [receive_rejected_eq { st with model := m } d ts hd]

/-- C4 witness at a concrete input: a payload carrying only a
temperature field, against a state already holding one active anomaly. -/
theorem C4_witness :
    (Payload.jobj [("temperature", JVal.num 22)] = Payload.jnull ∨
      ∃ d, Payload.jobj [("temperature", JVal.num 22)] = Payload.jobj d
           ∧ validPayload d = false)
  ∧ (∃ msg, (receive_sensor_data
        stateWithAnomaly
        (Payload.jobj [("temperature", JVal.num 22)]) 7).2
      = Except.ok (Outcome.reject msg))
  ∧ (receive_sensor_data
        stateWithAnomaly
        (Payload.jobj [("temperature", JVal.num 22)]) 7).1.anomalies
      = [anomalousPayload]
  ∧ (receive_sensor_data
        stateWithAnomaly
        (Payload.jobj [("temperature", JVal.num 22)]) 7).1.active_anomalies = 1 := by
  have h := C4_validation stateWithAnomaly
    (Payload.jobj [("temperature", JVal.num 22)]) 7
    (Or.inr ⟨[("temperature", JVal.num 22)], rfl, by decide⟩)
  exact ⟨Or.inr ⟨[("temperature", JVal.num 22)], rfl, by decide⟩, h.1, h.2.2.1, h.2.2.2.1⟩

/-- C5: per ingest call, the lifetime received counter increases by
exactly 1 whether the call is accepted, rejected, or raises; the
lifetime anomaly counter increases by exactly 1 when the reading is
classified anomalous and is unchanged when it is classified normal or
the call is not accepted; and on every accepted call the active-anomaly
gauge is set (at the record phase) to the length of the updated active
list, while a non-accepted call leaves the gauge untouched. -/
theorem C5_counters (st : AppState) (p : Payload) (ts : Int) :
    (receive_sensor_data st p ts).1.data_points_received
      = st.data_points_received + 1
  ∧ (∀ d, p = Payload.jobj d → validPayload d = true →
       ((classify st.model d ts).1 = true →
          (receive_sensor_data st p ts).1.anomalies_detected
            = st.anomalies_detected + 1)
     ∧ ((classify st.model d ts).1 = false →
          (receive_sensor_data st p ts).1.anomalies_detected
            = st.anomalies_detected)
     ∧ (receive_sensor_data st p ts).1.active_anomalies
         = (receive_sensor_data st p ts).1.anomalies.length
     ∧ (receive_sensor_data st p ts).2
         = Except.ok (Outcome.success "Data received and processed"
             (classify st.model d ts).1))
  ∧ ((p = Payload.jnull ∨ (∃ s, p = Payload.jstr s) ∨
        (∃ d, p = Payload.jobj d ∧ validPayload d = false)) →
       (receive_sensor_data st p ts).1.anomalies_detected
         = st.anomalies_detected
     ∧ (receive_sensor_data st p ts).1.active_anomalies
         = st.active_anomalies) := by
  refine ⟨?_, ?_, ?_⟩
  · cases p with
    | jnull => rfl
    | jstr s => rw [receive_jstr_state]
    | jobj d =>
        by_cases hd : validPayload d = true
        · rw [receive_valid_eq st d ts hd]
          cases hv : (classify st.model d ts).1 <;> simp [recordState, hv]
        · rw [receive_rejected_eq st d ts (by simpa using hd)]
  · intro d hp hd
    subst hp
    rw [receive_valid_eq st d ts hd]
    refine ⟨fun hv => ?_, fun hv => ?_, ?_, ?_⟩
    · simp [recordState, hv]
    · simp [recordState, hv]
    · cases hv : (classify st.model d ts).1 <;> simp [recordState, hv]
    · rfl
  · intro h
    rcases h with h | ⟨s, h⟩ | ⟨d, h, hd⟩
    · subst h; exact ⟨rfl, rfl⟩
    · subst h; rw [receive_jstr_state]; exact ⟨rfl, rfl⟩
    · subst h; rw [receive_rejected_eq st d ts hd]; exact ⟨rfl, rfl⟩

/-- C5 witness at concrete inputs: an accepted anomalous ingest bumps
both counters and sets the gauge to the new active length; a rejected
ingest bumps only the received counter. -/
theorem C5_witness :
    (receive_sensor_data (initialState (some thresholdModel))
        (Payload.jobj anomalousPayload) 5).1.data_points_received = 0 + 1
  ∧ (receive_sensor_data (initialState (some thresholdModel))
        (Payload.jobj anomalousPayload) 5).1.anomalies_detected = 0 + 1
  ∧ (receive_sensor_data (initialState (some thresholdModel))
        (Payload.jobj anomalousPayload) 5).1.active_anomalies
      = (receive_sensor_data (initialState (some thresholdModel))
          (Payload.jobj anomalousPayload) 5).1.anomalies.length
  ∧ (receive_sensor_data (initialState (some thresholdModel))
        Payload.jnull 5).1.data_points_received = 0 + 1
  ∧ (receive_sensor_data (initialState (some thresholdModel))
        Payload.jnull 5).1.anomalies_detected = 0 := by
  have h1 := C5_counters (initialState (some thresholdModel))
    (Payload.jobj anomalousPayload) 5
  have h2 := C5_counters (initialState (some thresholdModel)) Payload.jnull 5
  have ha := h1.2.1 anomalousPayload rfl (by decide)
  exact ⟨h1.1, ha.1 (by decide), ha.2.2.1, h2.1, (h2.2.2 (Or.inl rfl)).1⟩

end HealthMonitor

namespace HealthMonitor

/-- C2: recording an accepted normal reading applies exactly the
flap-clearing rule — the most-recently-added active anomaly is removed
iff the active list is non-empty and that entry's timestamp equals the
incoming reading's (server-assigned) timestamp — and no other path of
the ingest entry point ever removes an entry (an anomalous reading only
appends; a non-accepted call leaves the list untouched).  Consequently,
after an anomalous reading A immediately followed by a normal reading B
with the identical timestamp the active list is back to its pre-A value
(so it does not contain A, and the gauge is back to its pre-A value),
while after a normal reading C with a different timestamp A remains in
the active list unchanged. -/
theorem C2_flap_clearing (st : AppState) :
    (∀ d ts, validPayload d = true → (classify st.model d ts).1 = true →
        ((receive_sensor_data st (Payload.jobj d) ts).1).anomalies
          = st.anomalies ++ [mkReading st.model d ts])
  ∧ (∀ d ts, validPayload d = true → (classify st.model d ts).1 = false →
        ((receive_sensor_data st (Payload.jobj d) ts).1).anomalies
          = flapClear st.anomalies (mkReading st.model d ts))
  ∧ (∀ d ts last, st.anomalies.getLast? = some last →
        dlookup last "timestamp" = some (JVal.num ts) →
        flapClear st.anomalies (mkReading st.model d ts) = st.anomalies.dropLast)
  ∧ (∀ d ts last, st.anomalies.getLast? = some last →
        dlookup last "timestamp" ≠ some (JVal.num ts) →
        flapClear st.anomalies (mkReading st.model d ts) = st.anomalies)
  ∧ (∀ d ts, st.anomalies = [] →
        flapClear st.anomalies (mkReading st.model d ts) = st.anomalies)
  ∧ (∀ p ts, (∀ msg v, (receive_sensor_data st p ts).2
        ≠ Except.ok (Outcome.success msg v)) →
        ((receive_sensor_data st p ts).1).anomalies = st.anomalies)
  ∧ (∀ dA dB ts, validPayload dA = true → validPayload dB = true →
        (classify st.model dA ts).1 = true →
        (classify st.model dB ts).1 = false →
        st.active_anomalies = st.anomalies.length →
        ((receive_sensor_data (receive_sensor_data st (Payload.jobj dA) ts).1
            (Payload.jobj dB) ts).1).anomalies = st.anomalies
      ∧ ((receive_sensor_data (receive_sensor_data st (Payload.jobj dA) ts).1
            (Payload.jobj dB) ts).1).active_anomalies = st.active_anomalies
      ∧ (mkReading st.model dA ts ∉ st.anomalies →
          mkReading st.model dA ts ∉
            ((receive_sensor_data (receive_sensor_data st (Payload.jobj dA) ts).1
                (Payload.jobj dB) ts).1).anomalies))
  ∧ (∀ dA dC ts tsC, tsC ≠ ts → validPayload dA = true → validPayload dC = true →
        (classify st.model dA ts).1 = true →
        (classify st.model dC tsC).1 = false →
        ((receive_sensor_data (receive_sensor_data st (Payload.jobj dA) ts).1
            (Payload.jobj dC) tsC).1).anomalies
          = st.anomalies ++ [mkReading st.model dA ts]) := by
  have hanom : ∀ (s : AppState) d ts, validPayload d = true →
      (classify s.model d ts).1 = true →
      ((receive_sensor_data s (Payload.jobj d) ts).1).anomalies
        = s.anomalies ++ [mkReading s.model d ts] := by
    intro s d ts hd hv
    rw [receive_valid_eq s d ts hd, hv]
    simp [recordState]
  have hnorm : ∀ (s : AppState) d ts, validPayload d = true →
      (classify s.model d ts).1 = false →
      ((receive_sensor_data s (Payload.jobj d) ts).1).anomalies
        = flapClear s.anomalies (mkReading s.model d ts) := by
    intro s d ts hd hv
    rw [receive_valid_eq s d ts hd, hv]
    simp [recordState]
  have hgauge : ∀ (s : AppState) d ts, validPayload d = true →
      (classify s.model d ts).1 = false →
      ((receive_sensor_data s (Payload.jobj d) ts).1).active_anomalies
        = (flapClear s.anomalies (mkReading s.model d ts)).length := by
    intro s d ts hd hv
    rw [receive_valid_eq s d ts hd, hv]
    simp [recordState]
  have hstepA : ∀ dA ts, validPayload dA = true →
      (classify st.model dA ts).1 = true →
      ((receive_sensor_data st (Payload.jobj dA) ts).1).anomalies
        = st.anomalies ++ [mkReading st.model dA ts]
      ∧ ((receive_sensor_data st (Payload.jobj dA) ts).1).model = st.model := by
    intro dA ts hA hvA
    exact ⟨hanom st dA ts hA hvA, receive_model st (Payload.jobj dA) ts⟩
  refine ⟨hanom st, hnorm st, ?_, ?_, ?_, ?_, ?_, ?_⟩
  · intro d ts last hlast hts
    rw [flapClear, hlast, dlookup_mkReading_timestamp]
    simp [hts]
  · intro d ts last hlast hts
    rw [flapClear, hlast, dlookup_mkReading_timestamp]
    simp [hts]
  · intro d ts hnil
    rw [flapClear, hnil]
    rfl
  · intro p ts h
    cases p with
    | jnull => rfl
    | jstr s => rw [receive_jstr_state]
    | jobj d =>
        by_cases hd : validPayload d = true
        · exact absurd (congrArg Prod.snd (receive_valid_eq st d ts hd))
            (h "Data received and processed" (classify st.model d ts).1)
        · rw [receive_rejected_eq st d ts (by simpa using hd)]
  · intro dA dB ts hA hB hvA hvB hg
    obtain ⟨h1an, h1m⟩ := hstepA dA ts hA hvA
    set s1 := (receive_sensor_data st (Payload.jobj dA) ts).1 with hs1
    have hvB1 : (classify s1.model dB ts).1 = false := by rw [h1m]; exact hvB
    have hflap : flapClear s1.anomalies (mkReading s1.model dB ts) = st.anomalies := by
      rw [h1an, flapClear, List.getLast?_concat]
      simp [dlookup_mkReading_timestamp, List.dropLast_concat]
    have han2 : ((receive_sensor_data s1 (Payload.jobj dB) ts).1).anomalies
        = st.anomalies := by
      rw [hnorm s1 dB ts hB hvB1, hflap]
    refine ⟨han2, ?_, fun hmem => by rw [han2]; exact hmem⟩
    rw [hgauge s1 dB ts hB hvB1, hflap, hg]
  · intro dA dC ts tsC hne hA hC hvA hvC
    obtain ⟨h1an, h1m⟩ := hstepA dA ts hA hvA
    set s1 := (receive_sensor_data st (Payload.jobj dA) ts).1 with hs1
    have hvC1 : (classify s1.model dC tsC).1 = false := by rw [h1m]; exact hvC
    rw [hnorm s1 dC tsC hC hvC1, h1an, h1m, flapClear, List.getLast?_concat]
    simp [dlookup_mkReading_timestamp, Ne.symm hne]

end HealthMonitor

namespace HealthMonitor

/-- C2 witness at concrete inputs: anomalous reading then normal reading
at the identical server time 5 clears the anomaly (active list back to
empty, gauge back to 0); a normal reading at the different server time 6
leaves the anomaly in place. -/
theorem C2_witness :
    validPayload anomalousPayload = true
  ∧ validPayload samplePayload = true
  ∧ (classify (initialState (some thresholdModel)).model anomalousPayload 5).1 = true
  ∧ (classify (initialState (some thresholdModel)).model samplePayload 5).1 = false
  ∧ ((receive_sensor_data (receive_sensor_data (initialState (some thresholdModel))
        (Payload.jobj anomalousPayload) 5).1 (Payload.jobj samplePayload) 5).1).anomalies = []
  ∧ ((receive_sensor_data (receive_sensor_data (initialState (some thresholdModel))
        (Payload.jobj anomalousPayload) 5).1 (Payload.jobj samplePayload) 5).1).active_anomalies = 0
  ∧ ((receive_sensor_data (receive_sensor_data (initialState (some thresholdModel))
        (Payload.jobj anomalousPayload) 5).1 (Payload.jobj samplePayload) 6).1).anomalies
      = [] ++ [mkReading (initialState (some thresholdModel)).model anomalousPayload 5] := by
  have h := C2_flap_clearing (initialState (some thresholdModel))
  have hAB := h.2.2.2.2.2.2.1 anomalousPayload samplePayload 5
    (by decide) (by decide) (by decide) (by decide) rfl
  have hAC := h.2.2.2.2.2.2.2 anomalousPayload samplePayload 5 6
    (by decide) (by decide) (by decide) (by decide) (by decide)
  exact ⟨by decide, by decide, by decide, by decide, hAB.1, hAB.2.1, hAC⟩

end HealthMonitor

namespace HealthMonitor

theorem takeLast_append_right (n : Nat) (l m : List Dict) (h : n ≤ m.length) :
    takeLast n (l ++ m) = takeLast n m := by
  simp only [takeLast, List.length_append]
  rw [List.drop_append_eq_append_drop, List.drop_eq_nil_of_le (by omega)]
  simp only [List.nil_append]
  congr 1
  omega

/-- C1: for every sequence of more than `MAX_DATA_POINTS` accepted
ingest calls (from any state satisfying the buffer invariant), the
history buffer ends with length exactly `MAX_DATA_POINTS`, holding
exactly the most recent `MAX_DATA_POINTS` built readings in arrival
order (oldest first); the length never exceeds `MAX_DATA_POINTS` after
any prefix of the calls; and an accepted append at capacity evicts the
element at index 0 (FIFO). -/
theorem C1_buffer_bound (st : AppState) (inputs : List (Dict × Int))
    (h0 : st.current_data.length ≤ MAX_DATA_POINTS)
    (hv : ∀ x ∈ inputs, validPayload x.1 = true)
    (hN : inputs.length > MAX_DATA_POINTS) :
    (runIngests st inputs).current_data.length = MAX_DATA_POINTS
  ∧ (runIngests st inputs).current_data
      = takeLast MAX_DATA_POINTS (inputs.map (fun x => mkReading st.model x.1 x.2))
  ∧ (∀ i, (runIngests st (inputs.take i)).current_data.length ≤ MAX_DATA_POINTS)
  ∧ (∀ (s2 : AppState) (d : Dict) (t : Int), validPayload d = true →
        s2.current_data.length = MAX_DATA_POINTS →
        ((receive_sensor_data s2 (Payload.jobj d) t).1).current_data
          = s2.current_data.tail ++ [mkReading s2.model d t]) := by
  have hchar := runIngests_current_data inputs st hv h0
  have hmap : (inputs.map (fun x => mkReading st.model x.1 x.2)).length
      = inputs.length := by simp
  refine ⟨?_, ?_, ?_, ?_⟩
  · rw [hchar, takeLast_length, List.length_append, hmap]
    omega
  · rw [hchar, takeLast_append_right _ _ _ (by rw [hmap]; omega)]
  · intro i
    have hvi : ∀ x ∈ inputs.take i, validPayload x.1 = true :=
      fun x hx => hv x (List.take_subset i inputs hx)
    rw [runIngests_current_data (inputs.take i) st hvi h0, takeLast_length]
    omega
  · intro s2 d t hd hlen
    rw [receive_valid_eq s2 d t hd]
    have hgt : (s2.current_data ++ [mkReading s2.model d t]).length
        > MAX_DATA_POINTS := by simp [hlen]
    have htail : (s2.current_data ++ [mkReading s2.model d t]).tail
        = s2.current_data.tail ++ [mkReading s2.model d t] := by
      cases hcd : s2.current_data with
      | nil => rw [hcd] at hlen; simp [MAX_DATA_POINTS] at hlen
      | cons a as => simp
    cases hv2 : (classify s2.model d t).1 <;>
      simp [recordState, hv2, hgt, htail] <;>
      (intro hcontra; exact absurd hcontra (by omega))

set_option maxRecDepth 100000 in
/-- C1 witness at a concrete input: 101 identical valid ingests from the
fresh state leave the buffer at length exactly 100, holding the most
recent 100 built readings. -/
theorem C1_witness :
    (initialState (some thresholdModel)).current_data.length ≤ MAX_DATA_POINTS
  ∧ (manyInputs.all (fun x => validPayload x.1) = true)
  ∧ manyInputs.length > MAX_DATA_POINTS
  ∧ (runIngests (initialState (some thresholdModel)) manyInputs).current_data.length
      = MAX_DATA_POINTS
  ∧ (runIngests (initialState (some thresholdModel)) manyInputs).current_data
      = takeLast MAX_DATA_POINTS
          (manyInputs.map
            (fun x => mkReading (initialState (some thresholdModel)).model x.1 x.2)) := by
  have h := C1_buffer_bound (initialState (some thresholdModel)) manyInputs
    (by decide) (by decide) (by decide)
  exact ⟨by decide, by decide, by decide, h.1, h.2.1⟩

end HealthMonitor

namespace HealthMonitor

/-- C10: the active-anomaly list has no capacity bound: N accepted
ingests each classified anomalous (at pairwise distinct server times,
with no same-timestamp normal correction) leave the active list with
length exactly N while the history buffer stays capped at
`MAX_DATA_POINTS`; when N exceeds `MAX_DATA_POINTS` the active list
contains a reading already evicted from the history buffer. -/
theorem C10_active_set_unbounded (m : Option Model) (inputs : List (Dict × Int))
    (hall : ∀ x ∈ inputs, validPayload x.1 = true ∧ (classify m x.1 x.2).1 = true)
    (hts : (inputs.map (fun x => x.2)).Nodup) :
    ((runIngests (initialState m) inputs).anomalies.length = inputs.length)
  ∧ ((runIngests (initialState m) inputs).current_data.length
       = min MAX_DATA_POINTS inputs.length)
  ∧ (MAX_DATA_POINTS < inputs.length →
       ∃ r, r ∈ (runIngests (initialState m) inputs).anomalies
          ∧ r ∉ (runIngests (initialState m) inputs).current_data) := by
  have han := runIngests_anomalies_app inputs (initialState m) hall
  have hcd := runIngests_current_data inputs (initialState m)
      (fun x hx => (hall x hx).1) (by simp [initialState])
  have han0 : (initialState m).anomalies = [] := rfl
  have hcd0 : (initialState m).current_data = [] := rfl
  have hm0 : (initialState m).model = m := rfl
  rw [han0, List.nil_append, hm0] at han
  rw [hcd0, List.nil_append, hm0] at hcd
  refine ⟨by rw [han]; simp, by rw [hcd, takeLast_length]; simp, ?_⟩
  intro hN
  obtain ⟨x, rest, rfl⟩ : ∃ x rest, inputs = x :: rest := by
    cases inputs with
    | nil => exact absurd hN (by decide)
    | cons a l => exact ⟨a, l, rfl⟩
  refine ⟨mkReading m x.1 x.2, ?_, ?_⟩
  · rw [han]
    exact List.mem_map_of_mem _ (List.mem_cons_self x rest)
  · rw [hcd]
    have hKeq : ((x :: rest).map (fun y => mkReading m y.1 y.2)).length
        - MAX_DATA_POINTS = (rest.length - MAX_DATA_POINTS) + 1 := by
      simp at hN ⊢
      omega
    rw [takeLast, hKeq, List.map_cons, List.drop_succ_cons]
    intro hmem
    have hmem2 : mkReading m x.1 x.2 ∈ rest.map (fun y => mkReading m y.1 y.2) :=
      List.drop_subset _ _ hmem
    obtain ⟨y, hy, hfy⟩ := List.mem_map.mp hmem2
    have hyx : y.2 = x.2 := by
      have h1 := dlookup_mkReading_timestamp m y.1 y.2
      rw [hfy, dlookup_mkReading_timestamp] at h1
      simpa using h1.symm
    rw [List.map_cons, List.nodup_cons] at hts
    exact hts.1 (by rw [← hyx]; exact List.mem_map_of_mem _ hy)

set_option maxRecDepth 100000 in
/-- C10 witness at a concrete input: 101 anomalous ingests at distinct
server times 0..100 leave 101 active anomalies and a 100-entry history;
the reading stamped at time 0 is active but already evicted. -/
theorem C10_witness :
    (manyAnomalousInputs.all
        (fun x => validPayload x.1 && (classify (some outlierModel) x.1 x.2).1) = true)
  ∧ (manyAnomalousInputs.map (fun x => x.2)).Nodup
  ∧ (runIngests (initialState (some outlierModel)) manyAnomalousInputs).anomalies.length
      = manyAnomalousInputs.length
  ∧ (runIngests (initialState (some outlierModel)) manyAnomalousInputs).current_data.length
      = min MAX_DATA_POINTS manyAnomalousInputs.length
  ∧ mkReading (some outlierModel) anomalousPayload 0
      ∈ (runIngests (initialState (some outlierModel)) manyAnomalousInputs).anomalies
  ∧ mkReading (some outlierModel) anomalousPayload 0
      ∉ (runIngests (initialState (some outlierModel)) manyAnomalousInputs).current_data := by
  have h := C10_active_set_unbounded (some outlierModel) manyAnomalousInputs
    (by intro x hx
        have hx2 := List.mem_map.mp hx
        obtain ⟨i, _, rfl⟩ := hx2
        exact ⟨rfl, rfl⟩)
    (by decide)
  refine ⟨by decide, by decide, h.1, h.2.1, by decide, by decide⟩

end HealthMonitor

namespace HealthMonitor

theorem dlookup_of_not_mem_keys (d : Dict) (k : String) (h : k ∉ dictKeys d) :
    dlookup d k = none := by
  induction d with
  | nil => rfl
  | cons kv rest ih =>
      obtain ⟨k0, v0⟩ := kv
      rw [show dictKeys ((k0, v0) :: rest) = k0 :: dictKeys rest from rfl,
          List.mem_cons, not_or] at h
      rw [show dlookup ((k0, v0) :: rest) k
            = (if k0 = k then some v0 else dlookup rest k) from rfl,
          if_neg (fun hh => h.1 hh.symm)]
      exact ih h.2

theorem eqExceptTimestamp_lookup (d1 d2 : Dict)
    (h : eqExceptTimestamp d1 d2 = true) (k : String) (hk : k ≠ "timestamp") :
    dlookup d1 k = dlookup d2 k := by
  by_cases h1 : k ∈ dictKeys d1 ++ dictKeys d2
  · have h2 := List.all_eq_true.mp h k h1
    simpa [hk] using h2
  · simp only [List.mem_append, not_or] at h1
    rw [dlookup_of_not_mem_keys d1 k h1.1, dlookup_of_not_mem_keys d2 k h1.2]

theorem dictEquiv_of_lookup_eq (d1 d2 : Dict)
    (h : ∀ k, dlookup d1 k = dlookup d2 k) : dictEquiv d1 d2 = true := by
  simp [dictEquiv, List.all_eq_true, h]

/-- C9: two accepted ingest calls at the same wall-clock instant whose
payloads differ only in a client-supplied timestamp field are
indistinguishable: the second payload is also valid, the responses are
equal, the stored readings are equal as Python dicts, and the stored
timestamp is the server-assigned one (the client value is overwritten);
the built reading is indeed what lands at the end of the buffer. -/
theorem C9_server_timestamp (st : AppState) (p1 p2 : Dict) (ts : Int)
    (hdiff : eqExceptTimestamp p1 p2 = true)
    (h1 : validPayload p1 = true) :
    validPayload p2 = true
  ∧ (receive_sensor_data st (Payload.jobj p1) ts).2
      = (receive_sensor_data st (Payload.jobj p2) ts).2
  ∧ dictEquiv (mkReading st.model p1 ts) (mkReading st.model p2 ts) = true
  ∧ dlookup (mkReading st.model p1 ts) "timestamp" = some (JVal.num ts)
  ∧ ((receive_sensor_data st (Payload.jobj p1) ts).1).current_data.getLast?
      = some (mkReading st.model p1 ts) := by
  have hd : ∀ k, k ≠ "timestamp" → dlookup p1 k = dlookup p2 k :=
    fun k hk => eqExceptTimestamp_lookup p1 p2 hdiff k hk
  have hfeat : features (dset p1 "timestamp" (JVal.num ts))
      = features (dset p2 "timestamp" (JVal.num ts)) := by
    simp [features, dlookup_dset,
          hd "temperature" (by decide), hd "humidity" (by decide),
          hd "pressure" (by decide), hd "vibration" (by decide)]
  have hcls : classify st.model p1 ts = classify st.model p2 ts :=
    detect_anomaly_congr st.model _ _ hfeat
  have hv2 : validPayload p2 = true := by
    simp only [validPayload, Bool.and_eq_true, decide_eq_true_eq,
               List.all_eq_true] at h1 ⊢
    obtain ⟨hne, hall⟩ := h1
    have hreq : ∀ f ∈ requiredFields, dmem f p2 = true := by
      intro f hf
      have hfts : f ≠ "timestamp" := by
        have hx : ∀ g ∈ requiredFields, g ≠ "timestamp" := by decide
        exact hx f hf
      have := hall f hf
      simpa [dmem, ← hd f hfts] using this
    refine ⟨?_, hreq⟩
    intro hp2
    have htemp := hreq "temperature" (by decide)
    rw [hp2] at htemp
    simp [dmem, dlookup] at htemp
  have hmk : ∀ k, dlookup (mkReading st.model p1 ts) k
      = dlookup (mkReading st.model p2 ts) k := by
    intro k
    simp only [mkReading, dlookup_dset]
    rw [show detect_anomaly st.model (dset p1 "timestamp" (JVal.num ts))
          = detect_anomaly st.model (dset p2 "timestamp" (JVal.num ts)) from
          detect_anomaly_congr st.model _ _ hfeat]
    by_cases hk1 : k = "status"
    · simp [hk1]
    · by_cases hk2 : k = "is_anomaly"
      · simp [hk1, hk2]
      · by_cases hk3 : k = "timestamp"
        · simp [hk1, hk2, hk3]
        · simp [hk1, hk2, hk3, hd k hk3]
  refine ⟨hv2, ?_, dictEquiv_of_lookup_eq _ _ hmk,
          dlookup_mkReading_timestamp st.model p1 ts,
          receive_valid_getLast st p1 ts h1⟩
  rw [receive_valid_eq st p1 ts h1, receive_valid_eq st p2 ts hv2, hcls]

/-- C9 witness at a concrete input: the sample payload with and without
a client-supplied timestamp field 999, ingested at server time 5, store
equal readings carrying timestamp 5 and return equal responses. -/
theorem C9_witness :
    eqExceptTimestamp samplePayload clientTsPayload = true
  ∧ validPayload samplePayload = true
  ∧ validPayload clientTsPayload = true
  ∧ (receive_sensor_data (initialState (some thresholdModel))
        (Payload.jobj samplePayload) 5).2
      = (receive_sensor_data (initialState (some thresholdModel))
          (Payload.jobj clientTsPayload) 5).2
  ∧ dictEquiv (mkReading (initialState (some thresholdModel)).model samplePayload 5)
      (mkReading (initialState (some thresholdModel)).model clientTsPayload 5) = true
  ∧ dlookup (mkReading (initialState (some thresholdModel)).model samplePayload 5)
      "timestamp" = some (JVal.num 5) := by
  have h := C9_server_timestamp (initialState (some thresholdModel))
    samplePayload clientTsPayload 5 (by decide) (by decide)
  exact ⟨by decide, by decide, h.1, h.2.1, h.2.2.1, h.2.2.2.1⟩

end HealthMonitor

namespace HealthMonitor

/-- C3 counterexample: an ingest call whose JSON payload is the string
"temperature humidity pressure vibration" passes the containment-based
required-field check (`in` is substring containment on a string) and
then raises an uncaught `TypeError` at the timestamp-assignment step;
the exception escapes the ingest entry point instead of being converted
into a reported internal-error outcome — the entry point contains no
handler. -/
theorem C3_counterexample :
    (receive_sensor_data (initialState none)
        (Payload.jstr "temperature humidity pressure vibration") 1000).2
      = Except.error "TypeError: str object does not support item assignment" := by
  decide

/-- C3 amended: the ingest entry point has no exception handler, so an
unexpected internal failure during the timestamp/classify/record steps
escapes it uncaught rather than being converted into an internal-error
outcome; because the history append and the anomaly-list update both
come after the timestamp and classify steps, such an escaped exception
leaves the history buffer, the active list, the gauge and the anomaly
counter unchanged (no partial update; only the received counter has
already moved).  A failure of the model's predict call never reaches the
pipeline at all: it is caught inside the classifier and fails open, the
call returns a success outcome (not an internal-error outcome), and the
reading is still appended to history. -/
theorem C3_no_handler_no_partial_update (st : AppState) (ts : Int) :
    (∀ p e, (receive_sensor_data st p ts).2 = Except.error e →
        (receive_sensor_data st p ts).1.current_data = st.current_data
      ∧ (receive_sensor_data st p ts).1.anomalies = st.anomalies
      ∧ (receive_sensor_data st p ts).1.active_anomalies = st.active_anomalies
      ∧ (receive_sensor_data st p ts).1.anomalies_detected = st.anomalies_detected)
  ∧ (∀ m d e, st.model = some m → validPayload d = true →
       m.predict (features (dset d "timestamp" (JVal.num ts))) = Except.error e →
         (receive_sensor_data st (Payload.jobj d) ts).2
           = Except.ok (Outcome.success "Data received and processed" false)
       ∧ (receive_sensor_data st (Payload.jobj d) ts).1.current_data.getLast?
           = some (mkReading st.model d ts)) := by
  constructor
  · intro p e he
    cases p with
    | jnull =>
        rw [receive_jnull_eq] at he
        simp at he
    | jstr s =>
        rw [receive_jstr_state]
        exact ⟨rfl, rfl, rfl, rfl⟩
    | jobj d =>
        by_cases hd : validPayload d = true
        · rw [receive_valid_eq st d ts hd] at he
          simp at he
        · rw [receive_rejected_eq st d ts (by simpa using hd)]
          exact ⟨rfl, rfl, rfl, rfl⟩
  · intro m d e hm hd hp
    have hcls : classify st.model d ts = (false, "Prediction error: " ++ e) := by
      simp [classify, detect_anomaly, hm, hp]
    constructor
    · rw [receive_valid_eq st d ts hd, hcls]
    · exact receive_valid_getLast st d ts hd

/-- C3 witness at concrete inputs: the escaping string payload leaves
buffer and active list untouched; a raising model yields a success
outcome with the reading appended. -/
theorem C3_witness :
    (receive_sensor_data (initialState (some raisingModel))
        (Payload.jstr "temperature humidity pressure vibration") 5).2
      = Except.error "TypeError: str object does not support item assignment"
  ∧ (receive_sensor_data (initialState (some raisingModel))
        (Payload.jstr "temperature humidity pressure vibration") 5).1.current_data = []
  ∧ (receive_sensor_data (initialState (some raisingModel))
        (Payload.jstr "temperature humidity pressure vibration") 5).1.anomalies = []
  ∧ raisingModel.predict (features (dset samplePayload "timestamp" (JVal.num 5)))
      = Except.error "exception"
  ∧ (receive_sensor_data (initialState (some raisingModel))
        (Payload.jobj samplePayload) 5).2
      = Except.ok (Outcome.success "Data received and processed" false) := by
  have h := C3_no_handler_no_partial_update (initialState (some raisingModel)) 5
  have h1 := h.1 (Payload.jstr "temperature humidity pressure vibration")
    "TypeError: str object does not support item assignment" (by decide)
  have h2 := h.2 raisingModel samplePayload "exception" rfl (by decide) rfl
  exact ⟨by decide, h1.1, h1.2.1, rfl, h2.1⟩

end HealthMonitor
